import Mathlib

/-!
Shallow embedding of the Ansible syslog callback plugin
(`syslog_callback.py`, class `CallbackModule`) and proofs about it.

Conventions of the embedding:
* Python dict / Box lookups that can raise `KeyError`, and attribute accesses
  that can raise `AttributeError`, are modelled with `Except PyError` (or with
  `Option` for plain table lookups).
* A handler's side effects are the datagrams handed to `_send_to_syslog`;
  they are modelled as the list of `Emission`s the call produced, paired with
  the exception (if any) that aborted the handler.  Emissions made before the
  exception was raised are kept, matching Python's evaluation order.
* Python integers are `Nat` here: every quantity involved (facility and
  severity codes, counters, retries, ports) is non-negative in the source.
-/

namespace AnsibleSyslog

/-- A Python exception escaping a handler: `AttributeError` (unset instance
attribute) or `KeyError` (missing dict / Box key). -/
inductive PyError where
  | attributeError (attr : String)
  | keyError (key : String)
deriving DecidableEq, Repr

/-- One call to `_send_to_syslog`: the severity level passed and the message
body (before the wire format is applied). -/
structure Emission where
  level : Nat
  message : String
deriving DecidableEq, Repr

instance {ε α : Type} [DecidableEq ε] [DecidableEq α] :
    DecidableEq (Except ε α) := fun a b =>
  match a, b with
  | .error e, .error f => decidable_of_iff (e = f) (by simp)
  | .ok a, .ok b => decidable_of_iff (a = b) (by simp)
  | .error _, .ok _ => isFalse (by simp)
  | .ok _, .error _ => isFalse (by simp)

/-- `CallbackModule.syslog_levels` (a Box): severity name -> code. -/
def syslog_levels : String → Option Nat
  | "LOG_EMERG" => some 0
  | "LOG_ALERT" => some 1
  | "LOG_CRIT" => some 2
  | "LOG_ERR" => some 3
  | "LOG_WARNING" => some 4
  | "LOG_NOTICE" => some 5
  | "LOG_INFO" => some 6
  | "LOG_DEBUG" => some 7
  | _ => none

/-- `CallbackModule.syslog_facilities` (a Box): facility name -> code,
24 entries per RFC 5424. -/
def syslog_facilities : String → Option Nat
  | "kern" => some 0
  | "user" => some 1
  | "mail" => some 2
  | "daemon" => some 3
  | "auth" => some 4
  | "syslog" => some 5
  | "lpr" => some 6
  | "news" => some 7
  | "uucp" => some 8
  | "cron" => some 9
  | "authpriv" => some 10
  | "ftp" => some 11
  | "ntp" => some 12
  | "log_audit" => some 13
  | "log_alert" => some 14
  | "clock" => some 15
  | "local0" => some 16
  | "local1" => some 17
  | "local2" => some 18
  | "local3" => some 19
  | "local4" => some 20
  | "local5" => some 21
  | "local6" => some 22
  | "local7" => some 23
  | _ => none

/-- `CallbackModule.make_priority(facility, level)`.  A `Nat` input models a
Python `int` argument (used directly); a `String` input models a symbolic
name (looked up in the Box, raising `KeyError` if absent).  Result:
`(facility_code << 3) | level_code`. -/
def make_priority (facility : Nat ⊕ String) (level : Nat ⊕ String) :
    Except PyError Nat := do
  let facility_code ←
    match facility with
    | .inl n => pure n
    | .inr s =>
      match syslog_facilities s with
      | some n => pure n
      | none => Except.error (.keyError s)
  let level_code ←
    match level with
    | .inl n => pure n
    | .inr s =>
      match syslog_levels s with
      | some n => pure n
      | none => Except.error (.keyError s)
  pure ((facility_code <<< 3) ||| level_code)

/-- `self.syslog_levels.LOG_EMERG` -/
def LOG_EMERG : Nat := 0
/-- `self.syslog_levels.LOG_ERR` -/
def LOG_ERR : Nat := 3
/-- `self.syslog_levels.LOG_WARNING` -/
def LOG_WARNING : Nat := 4
/-- `self.syslog_levels.LOG_NOTICE` -/
def LOG_NOTICE : Nat := 5

/-- `self.syslog_facilities.user` (the Box attribute access hard-coded in
both `_send_to_syslog_RFC5424` and `_send_to_syslog_RFC3164`). -/
def syslog_facilities_user : Nat := 1

/-- The configuration Box returned by `_load_config`.  `levels` models the
`level_*` keys merged into the Box by the dict comprehension: it is defined
exactly on the keys `level_<event_type>` for the fifteen event types of
`level_defaults`, and `none` elsewhere (a missing Box key raises
`KeyError`). -/
structure Config where
  syslog_host : String
  syslog_port : Nat
  syslog_facility : String
  tag : String
  debug : Bool
  levels : String → Option String

/-- `CallbackModule._load_config`, as a function of the process environment
(`env k` is `os.environ.get(k)`).  The `levels` field unrolls the
comprehension `{f'level_{et}': os.environ.get(f'ANSIBLE_SYSLOG_LEVEL_{et.upper()}', default) for et, default in self.level_defaults.items()}`
over the fixed fifteen-entry `level_defaults` Box.  `int()` applied to the
port is modelled for well-formed numeric values only (no claim concerns the
port). -/
def load_config (env : String → Option String) : Config where
  syslog_host := (env "ANSIBLE_SYSLOG_HOST").getD "localhost"
  syslog_port := ((env "ANSIBLE_SYSLOG_PORT").bind String.toNat?).getD 514
  syslog_facility := (env "ANSIBLE_SYSLOG_FACILITY").getD "user"
  tag := (env "ANSIBLE_SYSLOG_TAG").getD "ansible"
  debug :=
    let s := ((env "ANSIBLE_SYSLOG_DEBUG").getD "").toLower
    s == "true" || s == "1" || s == "yes"
  levels := fun key =>
    match key with
    | "level_playbook_start" =>
      some ((env "ANSIBLE_SYSLOG_LEVEL_PLAYBOOK_START").getD "LOG_INFO")
    | "level_play_start" =>
      some ((env "ANSIBLE_SYSLOG_LEVEL_PLAY_START").getD "LOG_INFO")
    | "level_task_start" =>
      some ((env "ANSIBLE_SYSLOG_LEVEL_TASK_START").getD "LOG_DEBUG")
    | "level_ok" =>
      some ((env "ANSIBLE_SYSLOG_LEVEL_OK").getD "LOG_INFO")
    | "level_changed" =>
      some ((env "ANSIBLE_SYSLOG_LEVEL_CHANGED").getD "LOG_INFO")
    | "level_failed" =>
      some ((env "ANSIBLE_SYSLOG_LEVEL_FAILED").getD "LOG_ERR")
    | "level_unreachable" =>
      some ((env "ANSIBLE_SYSLOG_LEVEL_UNREACHABLE").getD "LOG_EMERG")
    | "level_skipped" =>
      some ((env "ANSIBLE_SYSLOG_LEVEL_SKIPPED").getD "LOG_NOTICE")
    | "level_retry" =>
      some ((env "ANSIBLE_SYSLOG_LEVEL_RETRY").getD "LOG_WARNING")
    | "level_item_ok" =>
      some ((env "ANSIBLE_SYSLOG_LEVEL_ITEM_OK").getD "LOG_INFO")
    | "level_item_failed" =>
      some ((env "ANSIBLE_SYSLOG_LEVEL_ITEM_FAILED").getD "LOG_ERR")
    | "level_item_skipped" =>
      some ((env "ANSIBLE_SYSLOG_LEVEL_ITEM_SKIPPED").getD "LOG_NOTICE")
    | "level_summary_start" =>
      some ((env "ANSIBLE_SYSLOG_LEVEL_SUMMARY_START").getD "LOG_INFO")
    | "level_summary_host" =>
      some ((env "ANSIBLE_SYSLOG_LEVEL_SUMMARY_HOST").getD "LOG_INFO")
    | "level_summary_complete" =>
      some ((env "ANSIBLE_SYSLOG_LEVEL_SUMMARY_COMPLETE").getD "LOG_INFO")
    | _ => none

/-- The configuration obtained with no `ANSIBLE_SYSLOG_*` variables set. -/
def default_config : Config := load_config (fun _ => none)

/-- `CallbackModule._get_log_level(event_type)`:
`self.syslog_levels[self.config[f'level_{event_type}']]`, each Box lookup
raising `KeyError` when the key is absent. -/
def get_log_level (c : Config) (event_type : String) : Except PyError Nat :=
  match c.levels ("level_" ++ event_type) with
  | none => Except.error (.keyError ("level_" ++ event_type))
  | some level_name =>
    match syslog_levels level_name with
    | none => Except.error (.keyError level_name)
    | some n => Except.ok n

/-- The f-string fragment `key="{value}"` used for the `task`, `item`,
`play`, `error` and `reason` fields: the value is interpolated verbatim
between two double quotes. -/
def quote_field (key value : String) : String :=
  key ++ "=\"" ++ value ++ "\""

/-- `result._result`, restricted to the keys `_log_runner_event` and the
item callbacks read.  A `none` field models an absent dict key (reading it
raises `KeyError`). -/
structure ResultRecord where
  msg : Option String
  skip_reason : Option String
  retries : Option Nat
deriving DecidableEq, Repr

/-- The level-resolution block of `_log_runner_event` (its final lines):
`LOG_NOTICE` for a failed task with `ignore_errors`, otherwise the
configured level for `item_{event_type}` (loop items) or `event_type`. -/
def runner_level (c : Config) (event_type : String) (item : Option String)
    (ignore_errors : Bool) : Except PyError Nat :=
  if event_type = "failed" ∧ ignore_errors = true then
    Except.ok LOG_NOTICE
  else
    get_log_level c
      (if item.isSome then "item_" ++ event_type else event_type)

/-- `CallbackModule._log_runner_event(result, event_type, item, ignore_errors)`.
`pn` is `self._playbook_name` (`none` while the attribute is unset; reading
it then raises `AttributeError`, before anything is sent).  `host` and
`task_name` are `result._host.get_name()` and `result._task.get_name()`.
The `event_data_mapping` dict becomes the conditional chain over the four
mapped event types; a missing `_result` key raises `KeyError` before the
level is resolved, so nothing is sent. -/
def log_runner_event (c : Config) (pn : Option String)
    (host task_name : String) (res : ResultRecord) (event_type : String)
    (item : Option String) (ignore_errors : Bool) :
    List Emission × Option PyError :=
  match pn with
  | none => ([], some (.attributeError "_playbook_name"))
  | some n =>
    let base := n ++ " target_host=" ++ host ++ " "
      ++ quote_field "task" task_name
    let with_item :=
      match item with
      | some i => base ++ " " ++ quote_field "item" i
      | none => base
    let with_status := with_item ++ " status=" ++ event_type
    let extra : Except PyError (Option String) :=
      if event_type = "failed" ∨ event_type = "unreachable" then
        match res.msg with
        | some v => Except.ok (some (quote_field "error" v))
        | none => Except.error (.keyError "msg")
      else if event_type = "skipped" then
        match res.skip_reason with
        | some v => Except.ok (some (quote_field "reason" v))
        | none => Except.error (.keyError "skip_reason")
      else if event_type = "retry" then
        match res.retries with
        | some v => Except.ok (some ("attempt=" ++ toString (v + 1)))
        | none => Except.error (.keyError "retries")
      else
        Except.ok none
    match extra with
    | .error e => ([], some e)
    | .ok extra_part =>
      let msg :=
        match extra_part with
        | some p => with_status ++ " " ++ p
        | none => with_status
      match runner_level c event_type item ignore_errors with
      | .error e => ([], some e)
      | .ok lv => ([⟨lv, msg⟩], none)

/-- `os.path.basename` for the POSIX paths Ansible hands over: the part of
the path after the final slash. -/
def basename (p : String) : String :=
  (p.splitOn "/").getLastD p

/-- `v2_playbook_on_start(playbook)`: records the playbook basename as
`self._playbook_name` (returned as the first component) and sends the
start message. -/
def v2_playbook_on_start (c : Config) (file_name : String) :
    String × (List Emission × Option PyError) :=
  let pn := basename file_name
  ( pn
  , match get_log_level c "playbook_start" with
    | .error e => ([], some e)
    | .ok lv => ([⟨lv, pn ++ " playbook status=started"⟩], none) )

/-- `v2_playbook_on_play_start(play)`.  `play_name` models
`play.get_name()`; the Python `or 'Unnamed play'` takes the fallback when
the name is falsy (empty).  The f-string reads `self._playbook_name` before
the level is looked up. -/
def v2_playbook_on_play_start (c : Config) (pn : Option String)
    (play_name : String) : List Emission × Option PyError :=
  let name := if play_name = "" then "Unnamed play" else play_name
  match pn with
  | none => ([], some (.attributeError "_playbook_name"))
  | some n =>
    match get_log_level c "play_start" with
    | .error e => ([], some e)
    | .ok lv =>
      ([⟨lv, n ++ " " ++ quote_field "play" name ++ " status=started"⟩], none)

/-- `v2_playbook_on_task_start(task, is_conditional)`.  The f-string reads
`self._playbook_name` before the level is looked up. -/
def v2_playbook_on_task_start (c : Config) (pn : Option String)
    (task_name : String) : List Emission × Option PyError :=
  match pn with
  | none => ([], some (.attributeError "_playbook_name"))
  | some n =>
    match get_log_level c "task_start" with
    | .error e => ([], some e)
    | .ok lv =>
      ([⟨lv, n ++ " " ++ quote_field "task" task_name ++ " status=started"⟩], none)

/-- The per-host counter dict returned by `stats.summarize(host)`. -/
structure Counters where
  ok : Nat
  changed : Nat
  failures : Nat
  unreachable : Nat
  skipped : Nat
  rescued : Nat
  ignored : Nat
deriving DecidableEq, Repr

/-- `total_tasks = sum(host_stats.values())`. -/
def Counters.total (h : Counters) : Nat :=
  h.ok + h.changed + h.failures + h.unreachable + h.skipped + h.rescued
    + h.ignored

/-- `host_stats.items()`, in the order the stats dict yields its keys (the
order used by the repository's test harness `MockStats.summarize`). -/
def Counters.items (h : Counters) : List (String × Nat) :=
  [("ok", h.ok), ("changed", h.changed), ("failures", h.failures),
   ("unreachable", h.unreachable), ("skipped", h.skipped),
   ("rescued", h.rescued), ("ignored", h.ignored)]

/-- The `summary_parts` loop and `' '.join(summary_parts) if summary_parts
else 'no_tasks'`: the nonzero counters rendered `k=v`, space-joined. -/
def summary_str (h : Counters) : String :=
  let parts := h.items.filterMap fun kv =>
    if kv.2 > 0 then some (kv.1 ++ "=" ++ toString kv.2) else none
  if parts = [] then "no_tasks" else " ".intercalate parts

/-- The per-host summary f-string of `v2_playbook_on_stats`. -/
def summary_host_message (n host : String) (h : Counters) : String :=
  n ++ " playbook_summary target_host=" ++ host ++ " total_tasks="
    ++ toString h.total ++ " " ++ summary_str h

/-- The level selection for one host's summary message
(`v2_playbook_on_stats`, the `if host_stats['failures'] > 0` chain). -/
def summary_host_level (c : Config) (h : Counters) : Except PyError Nat :=
  if h.failures > 0 then Except.ok LOG_ERR
  else if h.unreachable > 0 then Except.ok LOG_EMERG
  else get_log_level c "summary_host"

/-- The `for host in hosts:` loop of `v2_playbook_on_stats`: one emission
per host; a failed level lookup aborts the loop, keeping the emissions
already made. -/
def stats_host_loop (c : Config) (n : String)
    (summarize : String → Counters) : List String →
    List Emission × Option PyError
  | [] => ([], none)
  | host :: rest =>
    let h := summarize host
    let msg := summary_host_message n host h
    match summary_host_level c h with
    | .error e => ([], some e)
    | .ok lv =>
      let tail := stats_host_loop c n summarize rest
      (⟨lv, msg⟩ :: tail.1, tail.2)

/-- `v2_playbook_on_stats(stats)`.  `processed` is `stats.processed.keys()`
and `summarize` is `stats.summarize`.  Note the summary-start message is
computed and sent before the `if not hosts` check, so it is emitted even
for an empty target set. -/
def v2_playbook_on_stats (c : Config) (pn : Option String)
    (processed : List String) (summarize : String → Counters) :
    List Emission × Option PyError :=
  match get_log_level c "summary_start" with
  | .error e => ([], some e)
  | .ok lv0 =>
    match pn with
    | none => ([], some (.attributeError "_playbook_name"))
    | some n =>
      let startE : Emission := ⟨lv0, n ++ " playbook_summary status=started"⟩
      let hosts := List.insertionSort (· ≤ ·) processed
      if hosts = [] then
        ([startE, ⟨LOG_WARNING, n ++ " playbook_summary status=no_hosts"⟩],
         none)
      else
        match stats_host_loop c n summarize hosts with
        | (ems, some e) => (startE :: ems, some e)
        | (ems, none) =>
          match get_log_level c "summary_complete" with
          | .error e => (startE :: ems, some e)
          | .ok lvc =>
            (startE :: (ems
              ++ [⟨lvc, n ++ " playbook_summary status=completed"⟩]), none)

/-- A naive local instant, as produced by `datetime.datetime.now()` (no
tzinfo attached). -/
structure NaiveDateTime where
  year : Nat
  month : Nat
  day : Nat
  hour : Nat
  minute : Nat
  second : Nat
deriving DecidableEq, Repr

/-- A zero-padded two-digit field, as strftime renders `%m %d %H %M %S`
for the in-range values the `datetime` type guarantees. -/
def pad2 (n : Nat) : List Char :=
  [Nat.digitChar (n / 10 % 10), Nat.digitChar (n % 10)]

/-- A zero-padded four-digit year, as strftime renders `%Y` for the years
`datetime` permits (1..9999). -/
def pad4 (n : Nat) : List Char :=
  [Nat.digitChar (n / 1000 % 10), Nat.digitChar (n / 100 % 10),
   Nat.digitChar (n / 10 % 10), Nat.digitChar (n % 10)]

/-- `datetime.datetime.now().strftime('%Y-%m-%dT%H:%M:%S%z')`: because the
datetime is naive, `%z` renders as the empty string, leaving exactly the
19-character `YYYY-MM-DDTHH:MM:SS` form. -/
def strftime_naive_iso (dt : NaiveDateTime) : String :=
  ⟨pad4 dt.year ++ '-' :: pad2 dt.month ++ '-' :: pad2 dt.day
    ++ 'T' :: pad2 dt.hour ++ ':' :: pad2 dt.minute ++ ':' :: pad2 dt.second⟩

/-- The `if len(timestamp) > 19: timestamp = timestamp[:-2] + ':' + timestamp[-2:]`
fix-up of `_send_to_syslog_RFC5424`. -/
def fix_timezone (ts : String) : String :=
  if ts.length > 19 then ts.dropRight 2 ++ ":" ++ ts.takeRight 2 else ts

/-- The timestamp `_send_to_syslog_RFC5424` interpolates into the wire
message. -/
def rfc5424_timestamp (dt : NaiveDateTime) : String :=
  fix_timezone (strftime_naive_iso dt)

/-- Whether a string ends in a colon-separated UTC offset, i.e. its tail
matches the pattern sign, two digits, colon, two digits. -/
def ends_with_colon_offset (s : String) : Bool :=
  match s.data.reverse with
  | m1 :: m0 :: c :: h1 :: h0 :: sign :: _ =>
    (sign == '+' || sign == '-') && c == ':'
      && h0.isDigit && h1.isDigit && m0.isDigit && m1.isDigit
  | _ => false

/-- One UDP datagram as handed to `self.syslog_socket.sendto`. -/
structure Datagram where
  payload : String
  host : String
  port : Nat
deriving DecidableEq, Repr

/-- The priority both `_send_to_syslog_RFC5424` and
`_send_to_syslog_RFC3164` compute:
`self.make_priority(self.syslog_facilities.user, level)` — the facility is
the hard-coded Box attribute `user`, not the configured facility. -/
def send_priority (level : Nat) : Except PyError Nat :=
  make_priority (Sum.inl syslog_facilities_user) (Sum.inl level)

/-- `_send_to_syslog_RFC3164(level, message)`.  `ts` stands for the local
time rendered by `strftime('%b %d %H:%M:%S')` and `hostname` for
`socket.gethostname()`, both environment inputs. -/
def send_to_syslog_RFC3164 (c : Config) (ts hostname : String)
    (level : Nat) (message : String) : Except PyError Datagram :=
  match send_priority level with
  | .error e => .error e
  | .ok priority =>
    .ok { payload := "<" ++ toString priority ++ ">" ++ ts ++ " "
            ++ hostname ++ " " ++ c.tag ++ ": " ++ message ++ "\n"
        , host := c.syslog_host
        , port := c.syslog_port }

/-- `_send_to_syslog_RFC5424(level, message)`. -/
def send_to_syslog_RFC5424 (c : Config) (dt : NaiveDateTime)
    (hostname : String) (level : Nat) (message : String) :
    Except PyError Datagram :=
  match send_priority level with
  | .error e => .error e
  | .ok priority =>
    .ok { payload := "<" ++ toString priority ++ ">1 " ++ rfc5424_timestamp dt
            ++ " " ++ hostname ++ " " ++ c.tag ++ " - - " ++ message ++ "\n"
        , host := c.syslog_host
        , port := c.syslog_port }

/-- A process environment with `ANSIBLE_SYSLOG_FACILITY=daemon` set and no
other `ANSIBLE_SYSLOG_*` variable. -/
def env_daemon : String → Option String := fun k =>
  if k = "ANSIBLE_SYSLOG_FACILITY" then some "daemon" else none

/-- Modelled from the spec (§4.3 Quoting): escaping of internal double
quotes inside a quoted field value, each `"` becoming `\"`.  This is the
renderer the spec describes; the source performs no such escaping, and the
definition exists only to be compared against `quote_field`. -/
def escape_quotes (s : String) : String :=
  ⟨s.data.foldr (fun c acc => if c = '"' then '\\' :: '"' :: acc else c :: acc) []⟩

/-- Modelled from the spec: a `key="value"` field with the value's internal
double quotes escaped. -/
def spec_quoted_field (key value : String) : String :=
  key ++ "=\"" ++ escape_quotes value ++ "\""

/-- Reader for a double-quoted field value (opening quote already
consumed): plain characters accumulate, a backslash escapes the following
character, and the closing quote must end the input.  This is the reading
discipline matching the spec's quoting grammar, used to state whether a
rendered field is parseable. -/
def read_quoted (acc : List Char) : List Char → Option (List Char)
  | [] => none
  | c :: rest =>
    if c = '"' then
      if rest = [] then some acc.reverse else none
    else if c = '\\' then
      match rest with
      | [] => none
      | c2 :: r2 => read_quoted (c2 :: acc) r2
    else
      read_quoted (c :: acc) rest

/-- Drop an expected leading character sequence, failing on mismatch. -/
def drop_lead : List Char → List Char → Option (List Char)
  | [], rest => some rest
  | _ :: _, [] => none
  | p :: ps, c :: cs => if c = p then drop_lead ps cs else none

/-- Parse a `key="value"` token back into its value, per the quoting
grammar above. -/
def parse_field (key : String) (s : String) : Option (List Char) :=
  match drop_lead (key ++ "=\"").data s.data with
  | some rest => read_quoted [] rest
  | none => none

/-- C7: for every facility code in [0,23] and severity code in [0,7],
decoding the encoded priority via `priority >> 3` and `priority & 0x7`
returns the original pair; and `make_priority('user','LOG_ERR')`
`= make_priority(1,3) = 11`. -/
theorem claim_C7_roundtrip :
    (∀ f : Nat, f < 24 → ∀ s : Nat, s < 8 →
      (make_priority (Sum.inl f) (Sum.inl s)).map (fun p => (p >>> 3, p &&& 7))
        = Except.ok (f, s))
    ∧ make_priority (Sum.inr "user") (Sum.inr "LOG_ERR") = Except.ok 11
    ∧ make_priority (Sum.inl 1) (Sum.inl 3) = Except.ok 11 := by
  refine ⟨by decide, rfl, rfl⟩

/-- Witness for C7 at facility 1 ('user'), severity 3 (LOG_ERR). -/
theorem claim_C7_witness :
    (make_priority (Sum.inl 1) (Sum.inl 3)).map (fun p => (p >>> 3, p &&& 7))
      = Except.ok (1, 3) :=
  claim_C7_roundtrip.1 1 (by decide) 3 (by decide)

/-- C8 counterexample: numeric facility 24 (out of range) with severity 0 is
neither rejected nor clamped; the encoder returns priority 192, which lies
outside [0,191], refuting the claim as stated. -/
theorem claim_C8_counterexample :
    make_priority (Sum.inl 24) (Sum.inl 0) = Except.ok 192 ∧ ¬ (192 ≤ 191) := by
  exact ⟨rfl, by decide⟩

/-- C8 amended: numeric inputs are used without any validation — the encoder
neither raises nor clamps.  Facility 24 / severity 0 produces 192 > 191, and
facility 0 / severity 11 silently produces 11, the same in-range priority as
the valid pair (facility 1, severity 3). -/
theorem claim_C8_amended :
    make_priority (Sum.inl 24) (Sum.inl 0) = Except.ok 192
    ∧ 191 < 192
    ∧ make_priority (Sum.inl 0) (Sum.inl 11) = Except.ok 11
    ∧ make_priority (Sum.inl 1) (Sum.inl 3) = Except.ok 11 := by
  exact ⟨rfl, by decide, rfl, rfl⟩

lemma rq_step (c : Char) (rest acc : List Char) (hc1 : c ≠ '"')
    (hc2 : c ≠ '\\') :
    read_quoted acc (c :: rest) = read_quoted (c :: acc) rest := by
  rw [read_quoted.eq_def]
  simp only []
  rw [if_neg hc1, if_neg hc2]

lemma read_quoted_no_specials :
    ∀ (l acc : List Char), '"' ∉ l → '\\' ∉ l →
      read_quoted acc (l ++ ['"']) = some (acc.reverse ++ l) := by
  intro l
  induction l with
  | nil =>
    intro acc _ _
    rw [List.nil_append, read_quoted.eq_def]
    simp
  | cons c rest ih =>
    intro acc h1 h2
    simp only [List.mem_cons, not_or] at h1 h2
    have hc1 : c ≠ '"' := fun h => h1.1 h.symm
    have hc2 : c ≠ '\\' := fun h => h2.1 h.symm
    rw [List.cons_append, rq_step c _ acc hc1 hc2, ih (c :: acc) h1.2 h2.2]
    simp

lemma parse_quote_field (v : String) (h1 : '"' ∉ v.data)
    (h2 : '\\' ∉ v.data) :
    parse_field "task" (quote_field "task" v) = some v.data := by
  have hstep : parse_field "task" (quote_field "task" v)
      = read_quoted [] (v.data ++ ['"']) := rfl
  rw [hstep, read_quoted_no_specials v.data [] h1 h2]
  simp

/-- C1 counterexample: a task name containing a double quote
(`Configure "firewall"`) is rendered by `_log_runner_event` with its
internal quotes left unescaped, so the payload differs from the
escaped-quoting form the claim requires. -/
theorem claim_C1_counterexample :
    log_runner_event default_config (some "site.yml") "web01"
        "Configure \"firewall\"" ⟨none, none, none⟩ "ok" none false
      = ([⟨6, "site.yml target_host=web01 task=\"Configure \"firewall\"\" status=ok"⟩],
         none)
    ∧ "site.yml target_host=web01 task=\"Configure \"firewall\"\" status=ok"
      ≠ "site.yml target_host=web01 "
          ++ spec_quoted_field "task" "Configure \"firewall\"" ++ " status=ok" := by
  exact ⟨rfl, by decide⟩

/-- C1 amended: field values are wrapped in double quotes unconditionally,
with no escaping of internal double quotes.  A value free of quote and
backslash characters still parses back from its rendered field, but the
field rendered for `Configure "firewall"` is unparseable and differs from
the spec's escaped form. -/
theorem claim_C1_amended :
    (∀ v : String, '"' ∉ v.data → '\\' ∉ v.data →
      parse_field "task" (quote_field "task" v) = some v.data)
    ∧ parse_field "task" (quote_field "task" "Configure \"firewall\"") = none
    ∧ quote_field "task" "Configure \"firewall\""
        ≠ spec_quoted_field "task" "Configure \"firewall\"" := by
  refine ⟨fun v h1 h2 => parse_quote_field v h1 h2, by decide, by decide⟩

/-- Witness for C1 at the quote-free value `Configure firewall`. -/
theorem claim_C1_witness :
    parse_field "task" (quote_field "task" "Configure firewall")
      = some "Configure firewall".data :=
  claim_C1_amended.1 "Configure firewall" (by decide) (by decide)

lemma stats_host_loop_ok (c : Config) (n : String) (f : String → Counters)
    (lh : Nat) (hh : get_log_level c "summary_host" = Except.ok lh) :
    ∀ hosts : List String,
      stats_host_loop c n f hosts
        = (hosts.map fun host =>
            (⟨if 0 < (f host).failures then LOG_ERR
              else if 0 < (f host).unreachable then LOG_EMERG else lh,
              summary_host_message n host (f host)⟩ : Emission), none) := by
  intro hosts
  induction hosts with
  | nil => rfl
  | cons host rest ih =>
    have hlvl : summary_host_level c (f host)
        = Except.ok (if 0 < (f host).failures then LOG_ERR
            else if 0 < (f host).unreachable then LOG_EMERG else lh) := by
      unfold summary_host_level
      split_ifs <;> simp [hh]
    simp [stats_host_loop, hlvl, ih]

/-- C2 counterexample: with an empty target set the handler emits the
summary-start message followed by the no-hosts message — two messages, not
the single `SummaryNoHosts` the claim requires. -/
theorem claim_C2_counterexample :
    v2_playbook_on_stats default_config (some "site.yml") []
        (fun _ => ⟨0, 0, 0, 0, 0, 0, 0⟩)
      = ([⟨6, "site.yml playbook_summary status=started"⟩,
          ⟨4, "site.yml playbook_summary status=no_hosts"⟩], none)
    ∧ (v2_playbook_on_stats default_config (some "site.yml") []
        (fun _ => ⟨0, 0, 0, 0, 0, 0, 0⟩)).1
      ≠ [⟨4, "site.yml playbook_summary status=no_hosts"⟩] := by
  exact ⟨rfl, by decide⟩

/-- C2 amended: for a non-empty target set the handler emits SummaryStart,
one SummaryHost per target in ascending lexicographic order of target
identifier, then SummaryComplete; for an empty target set it emits
SummaryStart followed by exactly one SummaryNoHosts (the start message is
sent before the emptiness check), and no SummaryHost or SummaryComplete. -/
theorem claim_C2_amended (c : Config) (n : String) (f : String → Counters)
    (l0 lh lc : Nat)
    (h0 : get_log_level c "summary_start" = Except.ok l0)
    (hh : get_log_level c "summary_host" = Except.ok lh)
    (hcm : get_log_level c "summary_complete" = Except.ok lc) :
    (v2_playbook_on_stats c (some n) [] f
      = ([⟨l0, n ++ " playbook_summary status=started"⟩,
          ⟨LOG_WARNING, n ++ " playbook_summary status=no_hosts"⟩], none))
    ∧ ∀ processed : List String, processed ≠ [] →
        (List.insertionSort (· ≤ ·) processed).Sorted (· ≤ ·)
        ∧ (List.insertionSort (· ≤ ·) processed).Perm processed
        ∧ v2_playbook_on_stats c (some n) processed f
          = (⟨l0, n ++ " playbook_summary status=started"⟩
              :: (((List.insertionSort (· ≤ ·) processed).map fun host =>
                    (⟨if 0 < (f host).failures then LOG_ERR
                      else if 0 < (f host).unreachable then LOG_EMERG
                      else lh,
                      summary_host_message n host (f host)⟩ : Emission))
                  ++ [⟨lc, n ++ " playbook_summary status=completed"⟩]),
             none) := by
  constructor
  · simp [v2_playbook_on_stats, h0, List.insertionSort]
  · intro processed hne
    have hperm : (List.insertionSort (· ≤ ·) processed).Perm processed :=
      List.perm_insertionSort _ _
    have hsorted :
        (List.insertionSort (· ≤ ·) processed).Sorted (· ≤ ·) :=
      List.sorted_insertionSort _ _
    have hne2 : List.insertionSort (· ≤ ·) processed ≠ [] := by
      intro hnil
      have hp := hperm
      rw [hnil] at hp
      exact hne hp.symm.eq_nil
    refine ⟨hsorted, hperm, ?_⟩
    simp only [v2_playbook_on_stats, h0, hne2, if_false,
      stats_host_loop_ok c n f lh hh, hcm]

/-- Witness for C2 on concrete target sets, for the default configuration. -/
theorem claim_C2_witness :
    (v2_playbook_on_stats default_config (some "site.yml") []
        (fun _ => ⟨0, 0, 0, 0, 0, 0, 0⟩)
      = ([⟨6, "site.yml playbook_summary status=started"⟩,
          ⟨4, "site.yml playbook_summary status=no_hosts"⟩], none))
    ∧ (v2_playbook_on_stats default_config (some "site.yml")
        ["host2", "host1"] (fun _ => ⟨0, 0, 0, 0, 0, 0, 0⟩)
      = ([⟨6, "site.yml playbook_summary status=started"⟩,
          ⟨6, "site.yml playbook_summary target_host=host1 total_tasks=0 no_tasks"⟩,
          ⟨6, "site.yml playbook_summary target_host=host2 total_tasks=0 no_tasks"⟩,
          ⟨6, "site.yml playbook_summary status=completed"⟩], none)) := by
  have h := claim_C2_amended default_config "site.yml"
    (fun _ => ⟨0, 0, 0, 0, 0, 0, 0⟩) 6 6 6 rfl rfl rfl
  refine ⟨h.1, ?_⟩
  have h2 := (h.2 ["host2", "host1"] (by decide)).2.2
  rw [h2]
  have hn : ¬ ("host2" : String) ≤ "host1" := by
    rw [String.le_iff_toList_le]; decide
  have hsort : List.insertionSort (· ≤ ·) ["host2", "host1"]
      = ["host1", "host2"] := by
    simp [List.insertionSort, List.orderedInsert, hn]
  rw [hsort]
  rfl

/-- C3: a per-target summary message is sent at ERROR when the target's
failures counter is positive, at EMERGENCY when its unreachable counter is
positive and failures is zero, and otherwise at the configured
summary_host level. -/
theorem claim_C3_summary_severity (c : Config) (h : Counters) :
    (0 < h.failures → summary_host_level c h = Except.ok LOG_ERR)
    ∧ (h.failures = 0 → 0 < h.unreachable →
        summary_host_level c h = Except.ok LOG_EMERG)
    ∧ (h.failures = 0 → h.unreachable = 0 →
        summary_host_level c h = get_log_level c "summary_host") := by
  refine ⟨fun hf => ?_, fun hf hu => ?_, fun hf hu => ?_⟩
  · simp [summary_host_level, hf]
  · simp [summary_host_level, hf, hu]
  · simp [summary_host_level, hf, hu]

/-- Witness for C3 on the three counter shapes of the repository's test
harness. -/
theorem claim_C3_witness :
    summary_host_level default_config ⟨3, 0, 1, 0, 0, 1, 0⟩ = Except.ok LOG_ERR
    ∧ summary_host_level default_config ⟨2, 1, 0, 1, 0, 0, 1⟩
        = Except.ok LOG_EMERG
    ∧ summary_host_level default_config ⟨5, 2, 0, 0, 1, 0, 0⟩
        = get_log_level default_config "summary_host" :=
  ⟨(claim_C3_summary_severity default_config ⟨3, 0, 1, 0, 0, 1, 0⟩).1
      (by decide),
   (claim_C3_summary_severity default_config ⟨2, 1, 0, 1, 0, 0, 1⟩).2.1
      rfl (by decide),
   (claim_C3_summary_severity default_config ⟨5, 2, 0, 0, 1, 0, 0⟩).2.2
      rfl rfl⟩

/-- C4: the RFC 5424 sender's timestamp never ends in a colon-separated
UTC offset: `datetime.now()` is naive, `%z` renders empty, and the length
check guarding the colon fix-up therefore never fires.  At the concrete
instant 2026-10-12 00:00:00 the rendered timestamp is bare. -/
theorem claim_C4_no_offset :
    (∀ dt : NaiveDateTime,
      ends_with_colon_offset (rfc5424_timestamp dt) = false)
    ∧ rfc5424_timestamp ⟨2026, 10, 12, 0, 0, 0⟩ = "2026-10-12T00:00:00" := by
  exact ⟨fun dt => rfl, rfl⟩

/-- C5 counterexample: a failed-task event whose result record has no
`msg` key does not produce a message with a placeholder — the handler
raises `KeyError('msg')` and sends nothing. -/
theorem claim_C5_counterexample :
    log_runner_event default_config (some "site.yml") "db01"
        "Start database" ⟨none, none, none⟩ "failed" none false
      = ([], some (.keyError "msg")) := rfl

/-- C5 amended: for failed, unreachable, skipped and retry events, a
missing expected result field makes `_log_runner_event` raise `KeyError`
for that field and send nothing; no placeholder is substituted. -/
theorem claim_C5_amended (c : Config) (n host task_name : String)
    (res : ResultRecord) (item : Option String) (ig : Bool) :
    (res.msg = none →
      log_runner_event c (some n) host task_name res "failed" item ig
        = ([], some (.keyError "msg")))
    ∧ (res.msg = none →
      log_runner_event c (some n) host task_name res "unreachable" item ig
        = ([], some (.keyError "msg")))
    ∧ (res.skip_reason = none →
      log_runner_event c (some n) host task_name res "skipped" item ig
        = ([], some (.keyError "skip_reason")))
    ∧ (res.retries = none →
      log_runner_event c (some n) host task_name res "retry" item ig
        = ([], some (.keyError "retries"))) := by
  refine ⟨fun h => ?_, fun h => ?_, fun h => ?_, fun h => ?_⟩ <;>
    simp [log_runner_event, h]

/-- Witness for C5 at a concrete empty result record. -/
theorem claim_C5_witness :
    (log_runner_event default_config (some "site.yml") "db01" "t"
        ⟨none, none, none⟩ "failed" none false
      = ([], some (.keyError "msg")))
    ∧ (log_runner_event default_config (some "site.yml") "db01" "t"
        ⟨none, none, none⟩ "unreachable" none false
      = ([], some (.keyError "msg")))
    ∧ (log_runner_event default_config (some "site.yml") "db01" "t"
        ⟨none, none, none⟩ "skipped" none false
      = ([], some (.keyError "skip_reason")))
    ∧ (log_runner_event default_config (some "site.yml") "db01" "t"
        ⟨none, none, none⟩ "retry" none false
      = ([], some (.keyError "retries"))) :=
  ⟨(claim_C5_amended default_config "site.yml" "db01" "t"
      ⟨none, none, none⟩ none false).1 rfl,
   (claim_C5_amended default_config "site.yml" "db01" "t"
      ⟨none, none, none⟩ none false).2.1 rfl,
   (claim_C5_amended default_config "site.yml" "db01" "t"
      ⟨none, none, none⟩ none false).2.2.1 rfl,
   (claim_C5_amended default_config "site.yml" "db01" "t"
      ⟨none, none, none⟩ none false).2.2.2 rfl⟩

/-- C6: a failed-task event with `ignore_errors` resolves to NOTICE no
matter what level the configuration assigns to failed events, with or
without a loop item. -/
theorem claim_C6_ignore_errors (c : Config) (item : Option String) :
    runner_level c "failed" item true = Except.ok LOG_NOTICE := by
  simp [runner_level]

/-- C9: every per-event translation invoked before `v2_playbook_on_start`
has set `_playbook_name` surfaces an error and sends nothing: the runner,
play-start and task-start handlers raise `AttributeError` reading the
unset attribute, and the stats handler errors before its first send. -/
theorem claim_C9_ordering :
    (∀ (c : Config) (host task_name : String) (res : ResultRecord)
        (event_type : String) (item : Option String) (ig : Bool),
      log_runner_event c none host task_name res event_type item ig
        = ([], some (.attributeError "_playbook_name")))
    ∧ (∀ (c : Config) (play_name : String),
        v2_playbook_on_play_start c none play_name
          = ([], some (.attributeError "_playbook_name")))
    ∧ (∀ (c : Config) (task_name : String),
        v2_playbook_on_task_start c none task_name
          = ([], some (.attributeError "_playbook_name")))
    ∧ (∀ (c : Config) (processed : List String) (f : String → Counters),
        ∃ e, v2_playbook_on_stats c none processed f = ([], some e)) := by
  refine ⟨fun _ _ _ _ _ _ _ => rfl, fun _ _ => rfl, fun _ _ => rfl, ?_⟩
  intro c processed f
  cases hg : get_log_level c "summary_start" with
  | error e => exact ⟨e, by simp [v2_playbook_on_stats, hg]⟩
  | ok lv =>
    exact ⟨.attributeError "_playbook_name",
      by simp [v2_playbook_on_stats, hg]⟩

/-- C10: with `ANSIBLE_SYSLOG_FACILITY=daemon` the loaded configuration
names facility `daemon` (code 3), yet the priority actually encoded for
every sent message carries facility `user` (code 1), hard-coded in the
senders. -/
theorem claim_C10_facility :
    ∀ level : Nat, level < 8 →
      (load_config env_daemon).syslog_facility = "daemon"
      ∧ syslog_facilities "daemon" = some 3
      ∧ send_priority level = Except.ok (8 ||| level)
      ∧ (8 ||| level) >>> 3 = syslog_facilities_user
      ∧ syslog_facilities_user ≠ 3 := by
  decide

/-- Witness for C10 at level 6 (LOG_INFO). -/
theorem claim_C10_witness :
    (load_config env_daemon).syslog_facility = "daemon"
    ∧ syslog_facilities "daemon" = some 3
    ∧ send_priority 6 = Except.ok (8 ||| 6)
    ∧ (8 ||| 6) >>> 3 = syslog_facilities_user
    ∧ syslog_facilities_user ≠ 3 :=
  claim_C10_facility 6 (by decide)

end AnsibleSyslog
